import Mathlib

/-!
Verification of the OpenMeteo forecast extractor
(`shared_scripts/openmeteo.py`).

The script fetches historical and forecast hourly temperature data for a
list of locations from the OpenMeteo web API, computes 24-hour rolling
averages, and composes a plotly chart.  We embed the script shallowly:

* Python floats are modelled as `ℚ`;
* a pandas `DataFrame` becomes an index (list of timestamp strings)
  together with named numeric columns;
* the single external API call made by each fetcher is modelled as a
  function argument from the composed request to the JSON response, so
  each fetcher consumes exactly one response (no retry);
* raised exceptions become `Except` error values (the chart is displayed
  only in the `.ok` case, so an error before `fig.show()` means no chart).
-/

namespace OpenMeteo

/-- Calendar date, standing in for a Python `datetime` at day resolution
(the script only ever formats dates with `%Y-%m-%d`). -/
structure Date where
  year : Nat
  month : Nat
  day : Nat
deriving DecidableEq

/-- Zero-pad a number to two digits, as `strftime` does for `%m` and `%d`. -/
def pad2 (n : Nat) : String :=
  if n < 10 then "0" ++ toString n else toString n

/-- Zero-pad a number to four digits, as `strftime` does for `%Y`. -/
def pad4 (n : Nat) : String :=
  if n < 10 then "000" ++ toString n
  else if n < 100 then "00" ++ toString n
  else if n < 1000 then "0" ++ toString n
  else toString n

/-- `iso8601format`: the script's date formatter, `dt.strftime('%Y-%m-%d')`. -/
def iso8601format (dt : Date) : String :=
  pad4 dt.year ++ "-" ++ pad2 dt.month ++ "-" ++ pad2 dt.day

/-- A pandas `DataFrame` as the script uses it after `set_index("time")`:
a timestamp index and named numeric columns. -/
structure DataFrame where
  index : List String
  cols : List (String × List ℚ)
deriving DecidableEq

/-- Column lookup, as attribute access `df.<name>` on a pandas frame
(`none` models the `AttributeError` on a missing column). -/
def DataFrame.getCol (df : DataFrame) (c : String) : Option (List ℚ) :=
  (df.cols.find? (fun p => p.fst == c)).map Prod.snd

/-- `df.rename(columns=...)` with a single source/target pair. -/
def DataFrame.rename (df : DataFrame) (old new : String) : DataFrame :=
  ⟨df.index, df.cols.map (fun p => if p.fst == old then (new, p.snd) else p)⟩

/-- The `Location` dataclass: place name, coordinates, timezone and an
optional attached data table (`data: pd.DataFrame = None`). -/
structure Location where
  name : String
  latitude : ℚ
  longitude : ℚ
  timezone : String
  data : Option DataFrame
deriving DecidableEq

/-- `Location.copy`: `return Location(self.name, self.latitude,
self.longitude, self.timezone, self.data)`. -/
def Location.copy (l : Location) : Location :=
  Location.mk l.name l.latitude l.longitude l.timezone l.data

/-- Attribute assignment `location.data = ...`, as performed by the main
pipeline after fetching. -/
def Location.setData (l : Location) (d : Option DataFrame) : Location :=
  { l with data := d }

/-- The spec's coordinate invariant: latitude in [-90, 90] and longitude
in [-180, 180]. -/
def Location.inBounds (l : Location) : Prop :=
  -90 ≤ l.latitude ∧ l.latitude ≤ 90 ∧ -180 ≤ l.longitude ∧ l.longitude ≤ 180

instance (l : Location) : Decidable l.inBounds := by
  unfold Location.inBounds; infer_instance

/-- `GENEVA = Location("Geneva", 46.2052193, 6.1471942, ...)`. -/
def GENEVA : Location :=
  Location.mk "Geneva" 46.2052193 6.1471942 "Europe/Zurich" none

/-- `BERN = Location("Bern", 46.9546812, 7.3125359, ...)`. -/
def BERN : Location :=
  Location.mk "Bern" 46.9546812 7.3125359 "Europe/Zurich" none

/-- The fixed ten-entry RGB palette `color_order`. -/
def color_order : List (Nat × Nat × Nat) :=
  [(31, 119, 180),
   (255, 127, 14),
   (44, 160, 44),
   (214, 39, 40),
   (148, 103, 189),
   (140, 86, 75),
   (227, 119, 194),
   (127, 127, 127),
   (188, 189, 34),
   (23, 190, 207)]

/-- `get_color`: `color = color_order[idx % len(color_order)]`, then the
rgba format string.  Python `%` on ints agrees with `Int.emod` for a
positive modulus, so negative indices also wrap into the palette. -/
def get_color (idx : Int) (alpha : ℚ) : String :=
  let color := color_order.getD (idx % (color_order.length : Int)).toNat (0, 0, 0)
  "rgba(" ++ toString color.1 ++ ", " ++ toString color.2.1 ++ ", "
    ++ toString color.2.2 ++ ", " ++ toString alpha ++ ")"

/-- The `"hourly"` member of a successful OpenMeteo JSON response, as the
script consumes it: a time column and the requested temperature column. -/
structure Hourly where
  time : List String
  temperature_2m : List ℚ
deriving DecidableEq

/-- The JSON response dict, restricted to the keys the script reads.
`none` models a missing key (a lookup then raises `KeyError`). -/
structure MeteoResponse where
  error : Option Bool
  reason : Option String
  hourly : Option Hourly
deriving DecidableEq

/-- Errors a fetcher can raise: the data-source error built by
`check_error` (spec name: `DataSourceError`), or an uncaught `KeyError`
from a missing response key. -/
inductive FetchError where
  | dataSourceError (message : String)
  | keyError (key : String)
deriving DecidableEq

/-- `check_error`: inside a `try`, evaluates `data["error"]` and, when
truthy, builds the exception message from `data['reason']`; a `KeyError`
raised by either lookup is caught by `except KeyError: pass`, so a
missing `"error"` key — or a set error flag with a missing `"reason"`
key — returns normally. -/
def check_error (data : MeteoResponse) : Except FetchError Unit :=
  match data.error with
  | none => .ok ()
  | some b =>
    if b then
      match data.reason with
      | none => .ok ()
      | some r => .error (.dataSourceError ("Failed to load meteo data. Reason: " ++ r))
    else .ok ()

/-- The two OpenMeteo API endpoints (`OWmanager.forecast` /
`OWmanager.historical`). -/
inductive ApiKind where
  | forecast
  | historical
deriving DecidableEq

/-- Which hourly-parameter class the fetcher instantiates
(`HourlyForecast()` or `HourlyHistorical()`). -/
inductive HourlyClass where
  | hourlyForecast
  | hourlyHistorical
deriving DecidableEq

/-- Unit constant `celsius` from `openmeteo_py.Utils.constants`. -/
def celsius : String := "celsius"

/-- Unit constant `kmh` from `openmeteo_py.Utils.constants`. -/
def kmh : String := "kmh"

/-- Unit constant `mm` from `openmeteo_py.Utils.constants`. -/
def mm : String := "mm"

/-- Time-format constant `iso8601` from `openmeteo_py.Utils.constants`. -/
def iso8601 : String := "iso8601"

/-- The `ForecastOptions` argument object built by `get_forecast`. -/
structure ForecastOptions where
  latitude : ℚ
  longitude : ℚ
  current_weather : Bool
  temperature_unit : String
  windspeed_unit : String
  precipitation_unit : String
  timeformat : String
  timezone : String
  past_days : Nat
  forecast_days : Nat
deriving DecidableEq

/-- The `HistoricalOptions` argument object built by `get_historical`. -/
structure HistoricalOptions where
  latitude : ℚ
  longitude : ℚ
  current_weather : Bool
  temperature_unit : String
  windspeed_unit : String
  precipitation_unit : String
  timeformat : String
  timezone : String
  start_date : String
  end_date : String
deriving DecidableEq

/-- The request `get_forecast` hands to `OWmanager`: its options, the
endpoint, the hourly-parameter class it instantiated, and the hourly
variables registered on it. -/
structure ForecastRequest where
  options : ForecastOptions
  api : ApiKind
  hourlyClass : HourlyClass
  hourlyVariables : List String
deriving DecidableEq

/-- The request `get_historical` hands to `OWmanager`. -/
structure HistoricalRequest where
  options : HistoricalOptions
  api : ApiKind
  hourlyClass : HourlyClass
  hourlyVariables : List String
deriving DecidableEq

/-- The request composed by `get_forecast`: note the source instantiates
`hourly = HourlyHistorical()` here. -/
def forecastRequest (location : Location) : ForecastRequest :=
  { options :=
      { latitude := location.latitude
        longitude := location.longitude
        current_weather := false
        temperature_unit := celsius
        windspeed_unit := kmh
        precipitation_unit := mm
        timeformat := iso8601
        timezone := location.timezone
        past_days := 30
        forecast_days := 16 }
    api := ApiKind.forecast
    hourlyClass := HourlyClass.hourlyHistorical
    hourlyVariables := ["temperature_2m"] }

/-- The request composed by `get_historical`: note the source instantiates
`hourly = HourlyForecast()` here. -/
def historicalRequest (location : Location) (start_date now : Date) : HistoricalRequest :=
  { options :=
      { latitude := location.latitude
        longitude := location.longitude
        current_weather := false
        temperature_unit := celsius
        windspeed_unit := kmh
        precipitation_unit := mm
        timeformat := iso8601
        timezone := location.timezone
        start_date := iso8601format start_date
        end_date := iso8601format now }
    api := ApiKind.historical
    hourlyClass := HourlyClass.hourlyForecast
    hourlyVariables := ["temperature_2m"] }

/-- `pd.DataFrame(meteo["hourly"])` followed by
`df.set_index("time", drop=True)`: the time column becomes the index and
the single remaining column is `temperature_2m`. -/
def dfOfHourly (h : Hourly) : DataFrame :=
  ⟨h.time, [("temperature_2m", h.temperature_2m)]⟩

/-- `get_forecast`: composes the request, performs the single `get_data`
call (here: applies `get_data` to the composed request), checks for an
error flag, then reshapes `meteo["hourly"]` and renames the temperature
column to `"forecast"`. -/
def get_forecast (location : Location)
    (get_data : ForecastRequest → MeteoResponse) : Except FetchError DataFrame := do
  let meteo := get_data (forecastRequest location)
  check_error meteo
  match meteo.hourly with
  | none => .error (.keyError "hourly")
  | some h => .ok ((dfOfHourly h).rename "temperature_2m" "forecast")

/-- `get_historical`: same shape as `get_forecast` with the historical
request, renaming the temperature column to `"historical"`. -/
def get_historical (location : Location) (start_date now : Date)
    (get_data : HistoricalRequest → MeteoResponse) : Except FetchError DataFrame := do
  let meteo := get_data (historicalRequest location start_date now)
  check_error meteo
  match meteo.hourly with
  | none => .error (.keyError "hourly")
  | some h => .ok ((dfOfHourly h).rename "temperature_2m" "historical")

/-- Mean of a window, as pandas computes it: sum divided by the number of
entries. -/
def windowMean (l : List ℚ) : ℚ := l.sum / (l.length : ℚ)

/-- `series.rolling(w).mean()` on an all-numeric series: same length as
the input; position `k` holds the mean of the `w` entries ending at `k`
once `k + 1 ≥ w`, and is NaN (here `none`) before that (pandas default
`min_periods = w`). -/
def rollingMean (w : Nat) (s : List ℚ) : List (Option ℚ) :=
  (List.range s.length).map fun k =>
    if w ≤ k + 1 then some (windowMean ((s.drop (k + 1 - w)).take w)) else none

/-- `get_24h_average`: `series.rolling(24).mean()`. -/
def get_24h_average (s : List ℚ) : List (Option ℚ) :=
  rollingMean 24 s

/-- A data trace added with `fig.add_trace(go.Scatter(...))`.  Raw series
values are wrapped in `some`; rolling averages carry their leading `none`
(NaN) entries. -/
structure Trace where
  x : List String
  y : List (Option ℚ)
  name : String
  legendgroup : String
  dash : Bool
  color : String
deriving DecidableEq

/-- A horizontal reference line added with `fig.add_hline`. -/
structure HLine where
  y : ℚ
  dash : Bool
  color : String
deriving DecidableEq

/-- A vertical reference line added with `fig.add_vline`. -/
structure VLine where
  x : String
  dash : Bool
  color : String
deriving DecidableEq

/-- The chart object assembled by `plot`, as far as the script configures
it: reference lines, data traces, layout titles and the minor-tick origin
set by `update_xaxes`. -/
structure Figure where
  hlines : List HLine
  vlines : List VLine
  traces : List Trace
  title : String
  xaxis_title : String
  yaxis_title : String
  tick0 : String
deriving DecidableEq

/-- Exceptions `plot` can raise before `fig.show()`: the `NameError` for
the loop variable `df` when the location list is empty, the
`AttributeError` from `df.<column>` on a missing column (or on
`location.data` being `None`), and the `IndexError` from
`df.historical.index[0]` on an empty index. -/
inductive PlotError where
  | nameError (varName : String)
  | attributeError (attrName : String)
  | indexError
deriving DecidableEq

/-- One iteration of the plotting loop: reads `location.data`, accesses
the `forecast` and `historical` columns, computes their 24-hour averages
and produces the four `go.Scatter` traces in source order.  Also returns
the frame, since the loop variable `df` stays bound after the loop. -/
def locationTraces (idx : Nat) (location : Location) :
    Except PlotError (List Trace × DataFrame) :=
  match location.data with
  | none => .error (.attributeError "forecast")
  | some df =>
    match df.getCol "forecast" with
    | none => .error (.attributeError "forecast")
    | some forecastCol =>
      let forecast_24 := get_24h_average forecastCol
      match df.getCol "historical" with
      | none => .error (.attributeError "historical")
      | some historicalCol =>
        let historical_24 := get_24h_average historicalCol
        .ok ([⟨df.index, forecastCol.map some, "forecast", location.name,
                false, get_color idx 0.2⟩,
              ⟨df.index, forecast_24, "forecast av24h", location.name,
                true, get_color idx 1⟩,
              ⟨df.index, historicalCol.map some, "historical", location.name,
                false, get_color idx 0.4⟩,
              ⟨df.index, historical_24, "historical av24h", location.name,
                false, get_color idx 1⟩], df)

/-- The `for idx, location in enumerate(locations)` loop: accumulates the
traces and keeps the last bound value of `df` (`none` when the loop body
never ran). -/
def plotLoop (idx : Nat) (locations : List Location) :
    Except PlotError (List Trace × Option DataFrame) :=
  match locations with
  | [] => .ok ([], none)
  | location :: rest =>
    match locationTraces idx location with
    | .error e => .error e
    | .ok (ts, df) =>
      match plotLoop (idx + 1) rest with
      | .error e => .error e
      | .ok (restTs, restDf) => .ok (ts ++ restTs, some (restDf.getD df))

/-- The `fig.update_xaxes(minor=dict(..., tick0=df.historical.index[0],
...))` step together with the final figure assembly: raises `NameError`
when the loop variable `df` was never bound, `AttributeError` when the
last frame lacks the `historical` column, and `IndexError` when its
index is empty. -/
def updateXAxes (traces : List Trace) (lastDf : Option DataFrame) (now : Date) :
    Except PlotError Figure :=
  match lastDf with
  | none => .error (.nameError "df")
  | some df =>
    match df.getCol "historical" with
    | none => .error (.attributeError "historical")
    | some _ =>
      match df.index.head? with
      | none => .error .indexError
      | some t0 =>
        .ok { hlines := [⟨25, true, "red"⟩, ⟨27, true, "purple"⟩]
              vlines := [⟨iso8601format now, true, "black"⟩]
              traces := traces
              title := "Temperature OpenMeteo"
              xaxis_title := "Date"
              yaxis_title := "Temperature [°C]"
              tick0 := t0 }

/-- `plot`: adds the two threshold hlines and the today vline, runs the
trace loop, sets the layout titles, and configures the x axis.
`fig.show()` corresponds to returning `.ok`: an error raised earlier
means the chart is never displayed. -/
def plot (locations : List Location) (now : Date) : Except PlotError Figure :=
  match plotLoop 0 locations with
  | .error e => .error e
  | .ok (traces, lastDf) => updateXAxes traces lastDf now

/-- Locations producible by the `Location` dataclass operations in
general: the constructor accepts arbitrary field values, and `copy`
duplicates an existing value. -/
inductive ReachableLocation : Location → Prop where
  | construct (name : String) (latitude longitude : ℚ) (timezone : String)
      (data : Option DataFrame) :
      ReachableLocation (Location.mk name latitude longitude timezone data)
  | copy (l : Location) : ReachableLocation l → ReachableLocation l.copy

/-- Locations the program itself ever holds: the two module-level
constants, copies taken in `__main__`, and the data assignment performed
after fetching. -/
inductive MainReachable : Location → Prop where
  | geneva : MainReachable GENEVA
  | bern : MainReachable BERN
  | copy (l : Location) : MainReachable l → MainReachable l.copy
  | setData (l : Location) (d : Option DataFrame) :
      MainReachable l → MainReachable (l.setData d)

/-- A store of `Location` objects, modelling Python object identity:
distinct store positions are distinct objects. -/
abbrev Store := List Location

/-- `location.copy()` on the object at position `i`: allocates the copy
as a fresh object at the end of the store and returns its position. -/
def copyAt (s : Store) (i : Nat) : Store × Nat :=
  match s.get? i with
  | some loc => (s ++ [loc.copy], s.length)
  | none => (s, s.length)

/-- `location.data = d` on the object at position `i`: updates that
object in place and no other. -/
def setDataAt (s : Store) (i : Nat) (d : Option DataFrame) : Store :=
  match s.get? i with
  | some loc => s.set i (loc.setData d)
  | none => s

/-- A location carrying a merged table usable by `plot`: `data` is
present and the table has the `forecast` and `historical` columns and at
least one row. -/
def goodLoc (loc : Location) : Prop :=
  ∃ df : DataFrame, loc.data = some df ∧
    (df.getCol "forecast").isSome ∧ (df.getCol "historical").isSome ∧
    df.index ≠ []

/-- A one-row merged forecast/historical table, for concrete runs. -/
def demoFrame : DataFrame :=
  ⟨["2023-06-01T00:00"], [("forecast", [20]), ("historical", [19])]⟩

/-- A concrete location carrying `demoFrame`. -/
def demoLocA : Location := Location.mk "A" 0 0 "UTC" (some demoFrame)

/-- A second concrete location carrying `demoFrame`. -/
def demoLocB : Location := Location.mk "B" 1 1 "UTC" (some demoFrame)

/-- A response whose error flag is set and whose reason is present makes
`check_error` raise with the reason embedded in the message. -/
lemma check_error_flagged (m : MeteoResponse) (r : String)
    (he : m.error = some true) (hr : m.reason = some r) :
    check_error m = .error (.dataSourceError ("Failed to load meteo data. Reason: " ++ r)) := by
  obtain ⟨e, rr, hh⟩ := m
  simp only at he hr
  subst he; subst hr
  rfl

/-- Claim C10: calling `plot` with an empty location sequence raises the
unbound-variable `NameError` for `df` during x-axis configuration, before
the chart is displayed (no `.ok` figure is produced). -/
theorem c10_plot_empty_name_error (now : Date) :
    plot [] now = .error (PlotError.nameError "df") := rfl

/-- Claim C4: on the mock response with one hourly sample, the forecast
fetcher returns a one-row table indexed by the timestamp, with the single
column `"forecast"` holding 20.0. -/
theorem c4_forecast_mock_response :
    get_forecast GENEVA
        (fun _ => ⟨none, none, some ⟨["2023-06-01T00:00"], [20]⟩⟩) =
      .ok ⟨["2023-06-01T00:00"], [("forecast", [20])]⟩ ∧
    (DataFrame.mk ["2023-06-01T00:00"] [("forecast", [20])]).index.length = 1 ∧
    (DataFrame.mk ["2023-06-01T00:00"] [("forecast", [20])]).getCol "forecast" = some [20] ∧
    (DataFrame.mk ["2023-06-01T00:00"] [("forecast", [20])]).cols.map Prod.fst = ["forecast"] :=
  ⟨rfl, rfl, rfl, rfl⟩

/-- Claim C9: a response with the error flag set but no `"reason"` key
makes `check_error` return normally (the `KeyError` from the reason
lookup is swallowed by the same handler that tolerates a missing error
flag), so both fetchers proceed as if the response had succeeded. -/
theorem c9_missing_reason_swallowed (h : Hourly) (loc : Location) (sd now : Date) :
    check_error ⟨some true, none, some h⟩ = .ok () ∧
    get_forecast loc (fun _ => ⟨some true, none, some h⟩) =
      .ok ((dfOfHourly h).rename "temperature_2m" "forecast") ∧
    get_historical loc sd now (fun _ => ⟨some true, none, some h⟩) =
      .ok ((dfOfHourly h).rename "temperature_2m" "historical") :=
  ⟨rfl, rfl, rfl⟩

/-- Claim C2: the color cycler is deterministic and wraps around the
ten-entry palette: `get_color i alpha = get_color (i % 10) alpha` for
every integer `i`, and the result is the rgba string formatted from the
palette entry at position `i % 10`. -/
theorem c2_color_wraparound (i : Int) (a : ℚ) :
    get_color i a = get_color (i % 10) a ∧
    color_order.length = 10 ∧
    get_color i a =
      "rgba(" ++ toString (color_order.getD (i % 10).toNat (0, 0, 0)).1 ++ ", "
        ++ toString (color_order.getD (i % 10).toNat (0, 0, 0)).2.1 ++ ", "
        ++ toString (color_order.getD (i % 10).toNat (0, 0, 0)).2.2 ++ ", "
        ++ toString a ++ ")" := by
  have hlen : (color_order.length : Int) = 10 := rfl
  have hmod : i % 10 % 10 = i % 10 := Int.emod_emod_of_dvd i dvd_rfl
  refine ⟨?_, rfl, ?_⟩
  · simp only [get_color, hlen, hmod]
  · simp only [get_color, hlen]

/-- Claim C3: when the single external call returns a response whose
error flag is set with a reason string, both fetchers raise the
data-source error immediately and its message contains the reason as a
substring. -/
theorem c3_error_flag_raises (loc : Location) (sd now : Date) (r : String)
    (fetchF : ForecastRequest → MeteoResponse)
    (fetchH : HistoricalRequest → MeteoResponse)
    (hFe : (fetchF (forecastRequest loc)).error = some true)
    (hFr : (fetchF (forecastRequest loc)).reason = some r)
    (hHe : (fetchH (historicalRequest loc sd now)).error = some true)
    (hHr : (fetchH (historicalRequest loc sd now)).reason = some r) :
    get_forecast loc fetchF =
      .error (.dataSourceError ("Failed to load meteo data. Reason: " ++ r)) ∧
    get_historical loc sd now fetchH =
      .error (.dataSourceError ("Failed to load meteo data. Reason: " ++ r)) ∧
    ∃ pre post, "Failed to load meteo data. Reason: " ++ r = pre ++ r ++ post := by
  refine ⟨?_, ?_, "Failed to load meteo data. Reason: ", "", by simp⟩
  · simp only [get_forecast]
    rw [check_error_flagged _ r hFe hFr]
    rfl
  · simp only [get_historical]
    rw [check_error_flagged _ r hHe hHr]
    rfl

/-- Witness for C3 at the spec's concrete mock: the reason
`"bad coordinates"` propagates through both fetchers. -/
theorem c3_error_flag_raises_witness :
    get_forecast GENEVA (fun _ => ⟨some true, some "bad coordinates", none⟩) =
      .error (.dataSourceError "Failed to load meteo data. Reason: bad coordinates") ∧
    get_historical GENEVA ⟨2023, 6, 1⟩ ⟨2023, 6, 2⟩
        (fun _ => ⟨some true, some "bad coordinates", none⟩) =
      .error (.dataSourceError "Failed to load meteo data. Reason: bad coordinates") ∧
    ∃ pre post,
      "Failed to load meteo data. Reason: bad coordinates" = pre ++ "bad coordinates" ++ post :=
  c3_error_flag_raises GENEVA ⟨2023, 6, 1⟩ ⟨2023, 6, 2⟩ "bad coordinates"
    (fun _ => ⟨some true, some "bad coordinates", none⟩)
    (fun _ => ⟨some true, some "bad coordinates", none⟩) rfl rfl rfl rfl

/-- Claim C6, evaluated on the code: the source swaps the hourly classes
(`get_forecast` instantiates `HourlyHistorical`, `get_historical`
instantiates `HourlyForecast`), while the column naming does follow the
fetcher (`"forecast"` resp. `"historical"`). -/
theorem c6_hourly_class_swap (loc : Location) (sd now : Date) (h : Hourly) :
    (forecastRequest loc).hourlyClass = HourlyClass.hourlyHistorical ∧
    (historicalRequest loc sd now).hourlyClass = HourlyClass.hourlyForecast ∧
    HourlyClass.hourlyHistorical ≠ HourlyClass.hourlyForecast ∧
    get_forecast loc (fun _ => ⟨none, none, some h⟩) =
      .ok ((dfOfHourly h).rename "temperature_2m" "forecast") ∧
    get_historical loc sd now (fun _ => ⟨none, none, some h⟩) =
      .ok ((dfOfHourly h).rename "temperature_2m" "historical") :=
  ⟨rfl, rfl, by decide, rfl, rfl⟩

/-- Claim C1: the 24-hour rolling averager preserves the series length;
for every position `k ≥ 23` the output holds the mean of the 24 input
values ending at `k` (a window of exactly 24 entries, so the mean is
their sum divided by 24), and the first 23 positions are absent (NaN).
The embedding is a pure function, so the input series is unchanged. -/
theorem c1_rolling_average (s : List ℚ) (k : Nat) (hk : k < s.length) :
    (get_24h_average s).length = s.length ∧
    (23 ≤ k → ((s.drop (k - 23)).take 24).length = 24 ∧
      (get_24h_average s)[k]? = some (some (((s.drop (k - 23)).take 24).sum / 24))) ∧
    (k < 23 → (get_24h_average s)[k]? = some none) := by
  have hget : (get_24h_average s)[k]? =
      some (if 24 ≤ k + 1 then
        some (windowMean ((s.drop (k + 1 - 24)).take 24)) else none) := by
    simp only [get_24h_average, rollingMean, List.getElem?_map,
      List.getElem?_range hk, Option.map_some']
  refine ⟨by simp [get_24h_average, rollingMean], ?_, ?_⟩
  · intro h23
    have htake : ((s.drop (k - 23)).take 24).length = 24 := by
      rw [List.length_take, List.length_drop]
      omega
    refine ⟨htake, ?_⟩
    rw [hget, if_pos (by omega)]
    have heq : k + 1 - 24 = k - 23 := by omega
    rw [heq]
    have : windowMean ((s.drop (k - 23)).take 24)
        = ((s.drop (k - 23)).take 24).sum / 24 := by
      rw [windowMean, htake]
      norm_num
    rw [this]
  · intro hlt
    rw [hget, if_neg (by omega)]

/-- Witness for C1 on a concrete 24-sample series of ones: position 23 is
the first defined output and holds (sum of the window)/24. -/
theorem c1_rolling_average_witness :
    (23 < (List.replicate 24 (1 : ℚ)).length ∧ 23 ≤ 23) ∧
    (((List.replicate 24 (1 : ℚ)).drop (23 - 23)).take 24).length = 24 ∧
    (get_24h_average (List.replicate 24 (1 : ℚ)))[23]? =
      some (some ((((List.replicate 24 (1 : ℚ)).drop (23 - 23)).take 24).sum / 24)) :=
  ⟨⟨by decide, by decide⟩,
    (c1_rolling_average (List.replicate 24 (1 : ℚ)) 23 (by decide)).2.1 (by decide)⟩

/-- A good location makes one loop iteration succeed with exactly the
four source traces, returning the location's own frame. -/
lemma locationTraces_ok (idx : Nat) (loc : Location) (hloc : goodLoc loc) :
    ∃ ts df, locationTraces idx loc = .ok (ts, df) ∧ ts.length = 4 ∧
      loc.data = some df ∧ df.index ≠ [] ∧ (df.getCol "historical").isSome := by
  obtain ⟨df, hdata, hf, hh, hne⟩ := hloc
  obtain ⟨fc, hfc⟩ := Option.isSome_iff_exists.mp hf
  obtain ⟨hc, hhc⟩ := Option.isSome_iff_exists.mp hh
  refine ⟨[⟨df.index, fc.map some, "forecast", loc.name, false, get_color idx 0.2⟩,
           ⟨df.index, get_24h_average fc, "forecast av24h", loc.name, true, get_color idx 1⟩,
           ⟨df.index, hc.map some, "historical", loc.name, false, get_color idx 0.4⟩,
           ⟨df.index, get_24h_average hc, "historical av24h", loc.name, false, get_color idx 1⟩],
    df, ?_, rfl, hdata, hne, hh⟩
  simp only [locationTraces, hdata, hfc, hhc]

/-- Unfolding equation for one step of the trace loop. -/
lemma plotLoop_cons (idx : Nat) (loc : Location) (rest : List Location) :
    plotLoop idx (loc :: rest) =
      match locationTraces idx loc with
      | .error e => .error e
      | .ok (ts, df) =>
        match plotLoop (idx + 1) rest with
        | .error e => .error e
        | .ok (restTs, restDf) => .ok (ts ++ restTs, some (restDf.getD df)) := rfl

/-- When every location is good and the list is non-empty, the trace
loop succeeds with four traces per location and leaves `df` bound to the
last location's (row-carrying) frame. -/
lemma plotLoop_ok (locs : List Location) (idx : Nat)
    (hall : ∀ loc ∈ locs, goodLoc loc) (hne : locs ≠ []) :
    ∃ ts df, plotLoop idx locs = .ok (ts, some df) ∧
      ts.length = 4 * locs.length ∧ df.index ≠ [] ∧
      (df.getCol "historical").isSome := by
  induction locs generalizing idx with
  | nil => exact absurd rfl hne
  | cons loc rest ih =>
    obtain ⟨ts, df, hlt, hlen, _, hdne, hdh⟩ :=
      locationTraces_ok idx loc (hall loc (by simp))
    cases rest with
    | nil =>
      refine ⟨ts, df, ?_, by simp [hlen], hdne, hdh⟩
      rw [plotLoop_cons, hlt]
      show Except.ok (ts ++ [], some df) = Except.ok (ts, some df)
      rw [List.append_nil]
    | cons loc2 rest2 =>
      obtain ⟨ts2, df2, hpl, hlen2, hdne2, hdh2⟩ :=
        ih (idx + 1) (fun l hl => hall l (List.mem_cons_of_mem _ hl)) (by simp)
      refine ⟨ts ++ ts2, df2, ?_, ?_, hdne2, hdh2⟩
      · rw [plotLoop_cons, hlt, hpl]
        rfl
      · simp only [List.length_append, hlen, hlen2, List.length_cons]
        omega

/-- Claim C5 (amended: each table must have at least one row, otherwise
`df.historical.index[0]` raises `IndexError` before the chart is shown):
for a non-empty list of locations carrying non-empty merged tables, the
composed chart has exactly 4 traces per location, 2 horizontal threshold
lines and 1 vertical current-date line. -/
theorem c5_plot_trace_count (locations : List Location) (now : Date)
    (hne : locations ≠ []) (hall : ∀ loc ∈ locations, goodLoc loc) :
    ∃ fig : Figure, plot locations now = .ok fig ∧
      fig.traces.length = 4 * locations.length ∧
      fig.hlines.length = 2 ∧ fig.vlines.length = 1 := by
  obtain ⟨ts, df, hpl, hlen, hdne, hdh⟩ := plotLoop_ok locations 0 hall hne
  obtain ⟨hc, hhc⟩ := Option.isSome_iff_exists.mp hdh
  obtain ⟨t0, tl, hidx⟩ : ∃ t0 tl, df.index = t0 :: tl := by
    cases hI : df.index with
    | nil => exact absurd hI hdne
    | cons a l => exact ⟨a, l, rfl⟩
  refine ⟨⟨[⟨25, true, "red"⟩, ⟨27, true, "purple"⟩],
          [⟨iso8601format now, true, "black"⟩],
          ts, "Temperature OpenMeteo", "Date", "Temperature [°C]", t0⟩,
    ?_, hlen, rfl, rfl⟩
  have hstep : plot locations now = updateXAxes ts (some df) now := by
    simp only [plot]
    rw [hpl]
  rw [hstep]
  simp only [updateXAxes]
  rw [hhc, hidx]
  rfl

/-- Witness for C5's amended theorem: two one-row locations give a chart
with 4 × 2 = 8 data traces and 3 reference lines. -/
theorem c5_plot_trace_count_witness :
    (([demoLocA, demoLocB] : List Location) ≠ [] ∧
      ∀ loc ∈ ([demoLocA, demoLocB] : List Location), goodLoc loc) ∧
    ∃ fig : Figure, plot [demoLocA, demoLocB] ⟨2023, 6, 1⟩ = .ok fig ∧
      fig.traces.length = 4 * ([demoLocA, demoLocB] : List Location).length ∧
      fig.hlines.length = 2 ∧ fig.vlines.length = 1 := by
  have hall : ∀ loc ∈ ([demoLocA, demoLocB] : List Location), goodLoc loc := by
    intro loc hl
    rcases List.mem_cons.mp hl with h | hl2
    · exact h ▸ ⟨demoFrame, rfl, by decide, by decide, by decide⟩
    rcases List.mem_cons.mp hl2 with h | hl3
    · exact h ▸ ⟨demoFrame, rfl, by decide, by decide, by decide⟩
    · exact absurd hl3 (List.not_mem_nil loc)
  exact ⟨⟨by decide, hall⟩,
    c5_plot_trace_count [demoLocA, demoLocB] ⟨2023, 6, 1⟩ (by decide) hall⟩

/-- Counterexample for C5 as stated: a non-empty location list whose
(single) location carries a merged table with both columns but zero
rows; `plot` raises `IndexError` at `df.historical.index[0]` and no
chart is produced. -/
theorem c5_plot_counterexample :
    plot [Location.mk "Empty" 0 0 "UTC"
        (some ⟨[], [("forecast", []), ("historical", [])]⟩)] ⟨2023, 6, 1⟩
      = .error PlotError.indexError := rfl

/-- Claim C7: `copy()` allocates a distinct object whose five fields
equal the original's, and assigning the copy's `data` field afterwards
(as the pipeline does after fetching) leaves the original object — in
particular the shared prototype's `data` field — untouched, and every
other object in the store as well. -/
theorem c7_copy_no_aliasing (s : Store) (i : Nat) (hi : i < s.length)
    (d : Option DataFrame) :
    (copyAt s i).2 ≠ i ∧
    (copyAt s i).1.get? (copyAt s i).2 = some (s.get ⟨i, hi⟩).copy ∧
    ((s.get ⟨i, hi⟩).copy.name = (s.get ⟨i, hi⟩).name ∧
     (s.get ⟨i, hi⟩).copy.latitude = (s.get ⟨i, hi⟩).latitude ∧
     (s.get ⟨i, hi⟩).copy.longitude = (s.get ⟨i, hi⟩).longitude ∧
     (s.get ⟨i, hi⟩).copy.timezone = (s.get ⟨i, hi⟩).timezone ∧
     (s.get ⟨i, hi⟩).copy.data = (s.get ⟨i, hi⟩).data) ∧
    (setDataAt (copyAt s i).1 (copyAt s i).2 d).get? i = s.get? i ∧
    (∀ m, m ≠ (copyAt s i).2 →
      (setDataAt (copyAt s i).1 (copyAt s i).2 d).get? m = (copyAt s i).1.get? m) := by
  have hgi : s.get? i = some (s.get ⟨i, hi⟩) := List.get?_eq_get hi
  have hcopy : copyAt s i = (s ++ [(s.get ⟨i, hi⟩).copy], s.length) := by
    simp only [copyAt, hgi]
  have hjget : (s ++ [(s.get ⟨i, hi⟩).copy]).get? s.length
      = some (s.get ⟨i, hi⟩).copy := by
    rw [List.get?_eq_getElem?]
    exact List.getElem?_concat_length s _
  have hset : setDataAt (s ++ [(s.get ⟨i, hi⟩).copy]) s.length d
      = (s ++ [(s.get ⟨i, hi⟩).copy]).set s.length ((s.get ⟨i, hi⟩).copy.setData d) := by
    simp only [setDataAt, hjget]
  rw [hcopy]
  refine ⟨by omega, hjget, ⟨rfl, rfl, rfl, rfl, rfl⟩, ?_, ?_⟩
  · rw [hset, List.get?_eq_getElem?, List.getElem?_set_ne (by omega),
      List.getElem?_append_left hi, ← List.get?_eq_getElem?]
  · intro m hm
    rw [hset, List.get?_eq_getElem?, List.getElem?_set_ne (fun h => hm h.symm),
      ← List.get?_eq_getElem?]

/-- Witness for C7: copying `GENEVA` out of the two-object store and
assigning the copy's `data` leaves the prototype `GENEVA` unchanged at
its position. -/
theorem c7_copy_no_aliasing_witness :
    (0 < ([GENEVA, BERN] : Store).length) ∧
    (setDataAt (copyAt [GENEVA, BERN] 0).1 (copyAt [GENEVA, BERN] 0).2
        (some demoFrame)).get? 0 = ([GENEVA, BERN] : Store).get? 0 :=
  ⟨by decide, (c7_copy_no_aliasing [GENEVA, BERN] 0 (by decide) (some demoFrame)).2.2.2.1⟩

/-- Counterexample for C8 as stated: the dataclass constructor performs
no validation, so the program's operations can build a `Location` with
latitude 91, violating the claimed invariant. -/
theorem c8_bounds_counterexample :
    ReachableLocation (Location.mk "X" 91 0 "UTC" none) ∧
    ¬ (Location.mk "X" 91 0 "UTC" none).inBounds :=
  ⟨ReachableLocation.construct "X" 91 0 "UTC" none, by norm_num [Location.inBounds]⟩

/-- Claim C8 (amended: constrained to the Locations the program actually
creates): every `Location` the program reaches — the predefined `GENEVA`
and `BERN` constants, their copies, and copies with reassigned `data` —
satisfies latitude within [-90, 90] and longitude within [-180, 180];
the raw constructor itself does not enforce the bounds. -/
theorem c8_bounds_invariant (l : Location) (h : MainReachable l) :
    l.inBounds := by
  induction h with
  | geneva => norm_num [GENEVA, Location.inBounds]
  | bern => norm_num [BERN, Location.inBounds]
  | copy l' _ ih => exact ih
  | setData l' d _ ih => exact ih

/-- Witness for C8's amended theorem: the copy of `GENEVA` whose data is
populated by the pipeline is in bounds. -/
theorem c8_bounds_invariant_witness :
    (GENEVA.copy.setData (some demoFrame)).inBounds :=
  c8_bounds_invariant (GENEVA.copy.setData (some demoFrame))
    (MainReachable.setData GENEVA.copy (some demoFrame)
      (MainReachable.copy GENEVA MainReachable.geneva))

end OpenMeteo
